import Mathlib

/-!
Shallow embedding of `webcam_alpr.py` (class `WebcamALPR`), the
duplicate-suppression and session-recording component of the repository.

Python floats (timestamps in seconds, confidence scores) are embedded as
rationals `ℚ`; the wall clock read by `time()` and the ISO string produced
by `datetime.now().isoformat()` are passed in as explicit arguments, since
they are inputs of the computation.  The Python dict `self.last_seen` is
embedded as an insertion-ordered association list, as is the dict built by
the session-summary loop.  The session file on disk is embedded as the
`persisted` field of the state: `none` before the first write, and
`some doc` holding the last document written by `save_detection`.
-/

namespace WebcamALPR

/-- Error kinds named by the design document: a failed storage write, and an
invalid construction-time configuration. -/
inductive AlprError where
  | PersistenceError
  | InvalidConfiguration
deriving Repr, DecidableEq

/-- One detection record as built in `save_detection` (lines 84-89):
an ISO timestamp string, the plate text, and both confidences rounded
to 4 decimal places. -/
structure Detection where
  timestamp : String
  plate : String
  ocr_confidence : ℚ
  detection_confidence : ℚ
deriving Repr, DecidableEq

/-- The document written to the session file by `save_detection`
(lines 94-106). -/
structure SessionDoc where
  session_id : String
  session_start : String
  total_detections : ℕ
  detections : List Detection
deriving Repr, DecidableEq

/-- One candidate observation, as handled by the loop in `run`
(lines 155-165): the recognized plate text, the OCR and detector
confidences, the wall-clock time at which it is processed, and the ISO
timestamp string that `datetime.now().isoformat()` would produce then. -/
structure Event where
  plate : String
  ocr_conf : ℚ
  det_conf : ℚ
  observed_at : ℚ
  iso : String
deriving Repr, DecidableEq

/-- The mutable state of a `WebcamALPR` instance: the configuration fields
set in `__init__`, the in-memory session data `detected_plates` and
`last_seen`, and the current content of the session file. -/
structure State where
  min_confidence : ℚ
  duplicate_threshold : ℚ
  session_id : String
  detected_plates : List Detection
  last_seen : List (String × ℚ)
  persisted : Option SessionDoc
deriving Repr, DecidableEq

/-- Membership-and-lookup of a Python dict with `String` keys and `ℚ`
values, embedded as an insertion-ordered association list:
`lookupLS d k = some v` iff `k in d` and `d[k] == v`. -/
def lookupLS : List (String × ℚ) → String → Option ℚ
  | [], _ => none
  | (k, v) :: rest, key => if k = key then some v else lookupLS rest key

/-- Python dict assignment `d[k] = v`: overwrite in place if the key is
present, else append the new binding at the end (insertion order). -/
def insertLS : List (String × ℚ) → String → ℚ → List (String × ℚ)
  | [], k, v => [(k, v)]
  | (k0, v0) :: rest, k, v =>
      if k0 = k then (k0, v) :: rest else (k0, v0) :: insertLS rest k v

/-- Python `round(x, 4)` embedded on rationals: round `x * 10^4` to an
integer and divide back. -/
def round4 (q : ℚ) : ℚ := ((Rat.floor (q * 10000 + 1/2) : ℤ) : ℚ) / 10000

/-- The state built by `__init__` (lines 19-52): store the two
configuration numbers and the session id, start with an empty detection
list, an empty last-seen dict, and no session file written yet. -/
def initState (min_conf dup_threshold : ℚ) (session_id : String) : State :=
  { min_confidence := min_conf,
    duplicate_threshold := dup_threshold,
    session_id := session_id,
    detected_plates := [],
    last_seen := [],
    persisted := none }

/-- Embedding of `WebcamALPR.__init__` (lines 19-52) with the fallible
result type needed to state the design document's construction-time error
kind.  The body of `__init__` performs no validation of `min_confidence`
or `duplicate_threshold` - it only assigns the fields - so construction
always succeeds. -/
def init (min_conf dup_threshold : ℚ) (session_id : String) :
    Except AlprError State :=
  Except.ok (initState min_conf dup_threshold session_id)

/-- `WebcamALPR.is_duplicate` (lines 54-69): with the wall clock passed
explicitly, return `true` iff the plate is in `last_seen` and the elapsed
time since then is strictly below `duplicate_threshold`. -/
def is_duplicate (s : State) (plate_text : String) (current_time : ℚ) : Bool :=
  match lookupLS s.last_seen plate_text with
  | some t0 => if current_time - t0 < s.duplicate_threshold then true else false
  | none => false

/-- The acceptance predicate of the design document, realized in `run`
line 164 as the negation of `is_duplicate`. -/
def should_accept (s : State) (label : String) (observed_at : ℚ) : Bool :=
  !(is_duplicate s label observed_at)

/-- The detection record built in `save_detection` lines 84-89. -/
def mkDetection (plate_text : String) (conf det_conf : ℚ) (now_iso : String) :
    Detection :=
  { timestamp := now_iso,
    plate := plate_text,
    ocr_confidence := round4 conf,
    detection_confidence := round4 det_conf }

/-- The document dumped to the session file in `save_detection`
lines 94-106: `session_start` is the first recorded detection's timestamp
when the list is non-empty, else the current ISO time; `total_detections`
is the length of the list. -/
def mkDoc (session_id : String) (plates : List Detection) (now_iso : String) :
    SessionDoc :=
  { session_id := session_id,
    session_start :=
      match plates with
      | d :: _ => d.timestamp
      | [] => now_iso,
    total_detections := plates.length,
    detections := plates }

/-- `WebcamALPR.save_detection` (lines 71-106): update `last_seen`, append
the new record to `detected_plates`, then rewrite the session file.  The
file write may fail (`write_ok = false`); the method installs the
in-memory updates before the write and has no handler, so a write failure
propagates as a `PersistenceError` and leaves the file content unchanged,
while the returned state keeps the in-memory updates. -/
def save_detection (s : State) (plate_text : String) (conf det_conf : ℚ)
    (current_time : ℚ) (now_iso : String) (write_ok : Bool) :
    State × Except AlprError Unit :=
  let s1 : State :=
    { s with
      last_seen := insertLS s.last_seen plate_text current_time,
      detected_plates :=
        s.detected_plates ++ [mkDetection plate_text conf det_conf now_iso] }
  if write_ok then
    ({ s1 with
        persisted := some (mkDoc s1.session_id s1.detected_plates now_iso) },
      Except.ok ())
  else
    (s1, Except.error AlprError.PersistenceError)

/-- The per-candidate duplicate gate of `run` (lines 164-165): if the
plate is a duplicate do nothing, otherwise record it with a successful
write. -/
def observe (s : State) (e : Event) : State :=
  if is_duplicate s e.plate e.observed_at then s
  else (save_detection s e.plate e.ocr_conf e.det_conf e.observed_at e.iso true).1

/-- The detection record an event turns into when accepted. -/
def detOf (e : Event) : Detection :=
  mkDetection e.plate e.ocr_conf e.det_conf e.iso

/-- A session consisting of a sequence of accepted detections: one
`save_detection` call per event, every file write succeeding. -/
def accept_all (s : State) : List Event → State
  | [] => s
  | e :: rest =>
      accept_all
        (save_detection s e.plate e.ocr_conf e.det_conf e.observed_at e.iso true).1
        rest

/-- Lookup in the insertion-ordered count dict of the session summary. -/
def lookupN : List (String × ℕ) → String → Option ℕ
  | [], _ => none
  | (k, v) :: rest, key => if k = key then some v else lookupN rest key

/-- One iteration of the summary loop in `run` (lines 234-238): ensure the
plate has an entry, then increment it. -/
def bump : List (String × ℕ) → String → List (String × ℕ)
  | [], k => [(k, 1)]
  | (k0, n) :: rest, k =>
      if k0 = k then (k0, n + 1) :: rest else (k0, n) :: bump rest k

/-- The session summary computed in `run` (lines 231-241): the
insertion-ordered dict mapping each recorded plate to the number of
recorded detections bearing it. -/
def summarize (plates : List Detection) : List (String × ℕ) :=
  plates.foldl (fun acc d => bump acc d.plate) []

/-- JSON values, with numbers as rationals. -/
inductive Json where
  | str : String → Json
  | num : ℚ → Json
  | arr : List Json → Json
  | obj : List (String × Json) → Json

/-- Serialization of one detection record, field for field as written by
`json.dump` in `save_detection`. -/
def detToJson (d : Detection) : Json :=
  Json.obj [("timestamp", Json.str d.timestamp),
            ("plate", Json.str d.plate),
            ("ocr_confidence", Json.num d.ocr_confidence),
            ("detection_confidence", Json.num d.detection_confidence)]

/-- Serialization of the session document, field for field as written by
`json.dump` in `save_detection` (lines 94-106). -/
def docToJson (doc : SessionDoc) : Json :=
  Json.obj [("session_id", Json.str doc.session_id),
            ("session_start", Json.str doc.session_start),
            ("total_detections", Json.num (doc.total_detections : ℚ)),
            ("detections", Json.arr (doc.detections.map detToJson))]

/-- Modelled from the spec: the repository writes the session file but
never reads it back, so the deserializer needed by the round-trip property
is absent from the source; this decoder follows the persisted file format
of the design document, schema-directed: one detection record. -/
def detFromJson : Json → Option Detection
  | Json.obj [("timestamp", Json.str ts), ("plate", Json.str p),
      ("ocr_confidence", Json.num oc),
      ("detection_confidence", Json.num dc)] =>
      some { timestamp := ts, plate := p,
             ocr_confidence := oc, detection_confidence := dc }
  | _ => none

/-- Decode a list of detection records, failing if any entry fails. -/
def decodeDets : List Json → Option (List Detection)
  | [] => some []
  | j :: rest =>
      match detFromJson j, decodeDets rest with
      | some d, some ds => some (d :: ds)
      | _, _ => none

/-- Modelled from the spec: schema-directed decoder of the whole persisted
session document (see `detFromJson`). -/
def docFromJson : Json → Option SessionDoc
  | Json.obj [("session_id", Json.str sid), ("session_start", Json.str ss),
      ("total_detections", Json.num n), ("detections", Json.arr ds)] =>
      match decodeDets ds with
      | some dets =>
          some { session_id := sid, session_start := ss,
                 total_detections := n.num.toNat, detections := dets }
      | none => none
  | _ => none

/-! Helper lemmas about the dict embedding. -/

theorem lookupLS_insertLS (ls : List (String × ℚ)) (k : String) (v : ℚ)
    (key : String) :
    lookupLS (insertLS ls k v) key =
      if key = k then some v else lookupLS ls key := by
  induction ls with
  | nil =>
    by_cases h : key = k
    · simp [insertLS, lookupLS, h]
    · simp [insertLS, lookupLS, h, Ne.symm h]
  | cons hd tl ih =>
    obtain ⟨k0, v0⟩ := hd
    by_cases h0 : k0 = k
    · subst h0
      by_cases h1 : key = k0
      · simp [insertLS, lookupLS, h1]
      · simp [insertLS, lookupLS, h1, Ne.symm h1]
    · by_cases h1 : k0 = key
      · subst h1
        simp [insertLS, lookupLS, h0, Ne.symm h0]
      · simp [insertLS, lookupLS, h0, h1, ih]

/-- C1: for every state, label and observation time, `should_accept`
returns `false` iff the label has an entry in the last-seen index and the
elapsed time since that entry is strictly below the duplicate window;
otherwise it returns `true`.  In particular a label re-observed strictly
within the window of its recorded last sighting is rejected, and one
re-observed at or beyond the window is accepted. -/
theorem c1_should_accept_iff (s : State) (label : String) (observed_at : ℚ) :
    should_accept s label observed_at = false ↔
      ∃ t0, lookupLS s.last_seen label = some t0 ∧
        observed_at - t0 < s.duplicate_threshold := by
  unfold should_accept is_duplicate
  cases h : lookupLS s.last_seen label with
  | none => simp [h]
  | some t0 =>
    by_cases hd : observed_at - t0 < s.duplicate_threshold <;> simp [h, hd]

/-- C2 counterexample: constructing with the out-of-range configuration
`min_confidence = 3`, `duplicate_threshold = -1` succeeds; it does not
fail with `InvalidConfiguration` (nor with any error). -/
theorem c2_counterexample :
    init 3 (-1) "20240101_000000" =
      Except.ok (initState 3 (-1) "20240101_000000") := rfl

/-- C2 (amended): `__init__` performs no validation of its configuration:
construction succeeds for every `min_confidence` and every
`duplicate_threshold`, negative windows and out-of-range confidence
thresholds included, and the constructed state stores the supplied values
verbatim with empty session data. -/
theorem c2_init_no_validation (mc dt : ℚ) (sid : String) :
    init mc dt sid = Except.ok (initState mc dt sid) ∧
      (initState mc dt sid).min_confidence = mc ∧
      (initState mc dt sid).duplicate_threshold = dt ∧
      (initState mc dt sid).detected_plates = [] ∧
      (initState mc dt sid).last_seen = [] ∧
      (initState mc dt sid).persisted = none :=
  ⟨rfl, rfl, rfl, rfl, rfl, rfl⟩

/-- C3: when the file write inside `save_detection` fails, the call
returns the distinct `PersistenceError` error kind, the persisted file is
unchanged, and the in-memory state already reflects the acceptance: the
new record is appended to `detected_plates` and `last_seen` holds the
updated time for the label. -/
theorem c3_persistence_failure (s : State) (p : String) (conf dconf t : ℚ)
    (iso : String) :
    (save_detection s p conf dconf t iso false).2 =
        Except.error AlprError.PersistenceError ∧
      (save_detection s p conf dconf t iso false).1.detected_plates =
        s.detected_plates ++ [mkDetection p conf dconf iso] ∧
      lookupLS (save_detection s p conf dconf t iso false).1.last_seen p =
        some t ∧
      (save_detection s p conf dconf t iso false).1.persisted = s.persisted := by
  refine ⟨rfl, rfl, ?_, rfl⟩
  simp [save_detection, lookupLS_insertLS]

/-- C4 counterexample: with `duplicate_threshold = 0`, a label accepted at
time 10 and re-observed at the out-of-order time 5 is NOT accepted:
the raw difference `5 - 10` is negative, hence below the zero window, so
the detection is suppressed - refuting the claim that every detection of
the same label is accepted regardless of timing. -/
theorem c4_counterexample :
    should_accept (initState 3 0 "sid") "A" 10 = true ∧
      should_accept (observe (initState 3 0 "sid") ⟨"A", 0, 1, 10, "i"⟩)
        "A" 5 = false := by
  constructor
  · norm_num [should_accept, is_duplicate, initState, lookupLS]
  · norm_num [should_accept, is_duplicate, observe, save_detection,
      initState, insertLS, lookupLS]

/-- C4 (amended): with `duplicate_window = 0`, a detection of a label is
accepted iff its timestamp is not strictly earlier than the label's last
accepted timestamp (labels without an entry are always accepted).  In
particular every detection of a sequence with non-decreasing timestamps is
accepted, but an out-of-order re-observation - whose raw time difference
is negative - is suppressed. -/
theorem c4_window_zero (s : State) (l : String) (t : ℚ)
    (h : s.duplicate_threshold = 0) :
    should_accept s l t = true ↔
      ∀ t0, lookupLS s.last_seen l = some t0 → t0 ≤ t := by
  unfold should_accept is_duplicate
  rw [h]
  cases hl : lookupLS s.last_seen l with
  | none => simp [hl]
  | some t0 =>
    by_cases hlt : t - t0 < 0
    · have ht : ¬ t0 ≤ t := by
        rw [not_le]
        linarith
      simp [hl, hlt, ht]
    · have ht : t0 ≤ t := by linarith
      simp [hl, hlt, ht]

/-- C4 witness: the amended theorem applied to the freshly constructed
state with window 0 and an unseen label. -/
theorem c4_window_zero_witness :
    (initState 3 0 "sid0").duplicate_threshold = 0 ∧
      (should_accept (initState 3 0 "sid0") "A" 5 = true ↔
        ∀ t0, lookupLS (initState 3 0 "sid0").last_seen "A" = some t0 →
          t0 ≤ 5) :=
  ⟨rfl, c4_window_zero (initState 3 0 "sid0") "A" 5 rfl⟩

/-- C10: the duplicate check is a pure query, and a candidate rejected as
a duplicate leaves the whole component state - last-seen index, in-memory
detection list and persisted file alike - exactly unchanged. -/
theorem c10_reject_frame (s : State) (e : Event)
    (h : is_duplicate s e.plate e.observed_at = true) :
    observe s e = s := by
  simp [observe, h]

/-- C10 witness: after accepting label A at time 0 with window 5, the
candidate A at time 3 is a duplicate and processing it changes nothing. -/
theorem c10_witness :
    is_duplicate (observe (initState 3 5 "sid1") ⟨"A", 0, 0, 0, "i"⟩)
        "A" 3 = true ∧
      observe (observe (initState 3 5 "sid1") ⟨"A", 0, 0, 0, "i"⟩)
          ⟨"A", 0, 0, 3, "j"⟩ =
        observe (initState 3 5 "sid1") ⟨"A", 0, 0, 0, "i"⟩ := by
  have hdup : is_duplicate
      (observe (initState 3 5 "sid1") ⟨"A", 0, 0, 0, "i"⟩) "A" 3 = true := by
    norm_num [is_duplicate, observe, save_detection, initState,
      insertLS, lookupLS]
  exact ⟨hdup, c10_reject_frame _ _ hdup⟩

/-! Helper lemmas about sessions of accepted detections. -/

theorem accept_all_nil (s : State) : accept_all s [] = s := rfl

theorem accept_all_cons (s : State) (e : Event) (rest : List Event) :
    accept_all s (e :: rest) =
      accept_all
        (save_detection s e.plate e.ocr_conf e.det_conf e.observed_at e.iso
          true).1
        rest := rfl

theorem accept_all_detected (evs : List Event) :
    ∀ s : State, (accept_all s evs).detected_plates =
      s.detected_plates ++ evs.map detOf := by
  induction evs with
  | nil => intro s; simp [accept_all_nil]
  | cons e rest ih =>
    intro s
    rw [accept_all_cons, ih]
    simp [save_detection, detOf]

theorem accept_all_persisted (rest : List Event) :
    ∀ (e : Event) (s : State), ∃ iso,
      (accept_all s (e :: rest)).persisted =
        some (mkDoc s.session_id
          (accept_all s (e :: rest)).detected_plates iso) := by
  induction rest with
  | nil =>
    intro e s
    refine ⟨e.iso, ?_⟩
    simp [accept_all_nil, accept_all_cons, save_detection]
  | cons e2 rest2 ih =>
    intro e s
    rw [accept_all_cons]
    obtain ⟨iso, hiso⟩ := ih e2
      (save_detection s e.plate e.ocr_conf e.det_conf e.observed_at e.iso
        true).1
    refine ⟨iso, ?_⟩
    rw [hiso]
    simp [save_detection]

theorem accept_all_lookup_isSome (evs : List Event) :
    ∀ (s : State) (l : String),
      (lookupLS (accept_all s evs).last_seen l).isSome = true ↔
        (lookupLS s.last_seen l).isSome = true ∨ l ∈ evs.map Event.plate := by
  induction evs with
  | nil => intro s l; simp [accept_all_nil]
  | cons e rest ih =>
    intro s l
    rw [accept_all_cons, ih]
    by_cases h : l = e.plate
    · simp [save_detection, lookupLS_insertLS, h]
    · simp [save_detection, lookupLS_insertLS, h]

/-- C5: after every successful session of accepted detections - one
`save_detection` call per event, every write succeeding - the persisted
document's `total_detections` equals the length of its `detections` array
and equals the number of `save_detection` calls made. -/
theorem c5_total_detections (mc dt : ℚ) (sid : String) (e : Event)
    (evs : List Event) :
    ∃ doc, (accept_all (initState mc dt sid) (e :: evs)).persisted =
        some doc ∧
      doc.total_detections = doc.detections.length ∧
      doc.total_detections = (e :: evs).length := by
  obtain ⟨iso, hiso⟩ := accept_all_persisted evs e (initState mc dt sid)
  refine ⟨_, hiso, ?_, ?_⟩
  · simp [mkDoc]
  · simp [mkDoc, accept_all_detected, initState]

/-- C6: before the first accepted detection no document has been
persisted, and after every accepted detection - the first and every later
one - the persisted document's `session_start` equals the timestamp of
the first accepted detection of the session. -/
theorem c6_session_start (mc dt : ℚ) (sid : String) (e : Event)
    (evs : List Event) :
    (initState mc dt sid).persisted = none ∧
      ∃ doc, (accept_all (initState mc dt sid) (e :: evs)).persisted =
          some doc ∧
        doc.session_start = (detOf e).timestamp ∧
        doc.session_start = e.iso := by
  refine ⟨rfl, ?_⟩
  obtain ⟨iso, hiso⟩ := accept_all_persisted evs e (initState mc dt sid)
  refine ⟨_, hiso, ?_, ?_⟩ <;>
    simp [mkDoc, accept_all_detected, initState, detOf, mkDetection]

/-- C8: the last-seen index of a fresh instance is empty; throughout any
session of accepted detections a label has an entry in the index iff some
accepted event bore that label; and each `save_detection` call - whether
its write succeeds or fails - updates exactly the accepted label's entry,
leaving every other key's binding unchanged and never removing one. -/
theorem c8_last_seen_iff :
    (∀ (mc dt : ℚ) (sid : String), (initState mc dt sid).last_seen = []) ∧
      (∀ (mc dt : ℚ) (sid : String) (evs : List Event) (l : String),
        (lookupLS (accept_all (initState mc dt sid) evs).last_seen
            l).isSome = true ↔
          l ∈ evs.map Event.plate) ∧
      (∀ (s : State) (p : String) (conf dconf t : ℚ) (iso : String)
          (w : Bool) (key : String),
        lookupLS (save_detection s p conf dconf t iso w).1.last_seen key =
          if key = p then some t else lookupLS s.last_seen key) := by
  refine ⟨fun _ _ _ => rfl, ?_, ?_⟩
  · intro mc dt sid evs l
    rw [accept_all_lookup_isSome]
    simp [initState, lookupLS]
  · intro s p conf dconf t iso w key
    cases w <;> simp [save_detection, lookupLS_insertLS]

/-! Helper lemmas about the summary dict. -/

theorem lookupN_bump_self (a : List (String × ℕ)) (k : String) :
    lookupN (bump a k) k = some ((lookupN a k).getD 0 + 1) := by
  induction a with
  | nil => simp [bump, lookupN]
  | cons hd tl ih =>
    obtain ⟨k0, n⟩ := hd
    by_cases h : k0 = k
    · subst h
      simp [bump, lookupN]
    · simp [bump, lookupN, h, ih]

theorem lookupN_bump_other (a : List (String × ℕ)) (k key : String)
    (h : key ≠ k) :
    lookupN (bump a k) key = lookupN a key := by
  induction a with
  | nil => simp [bump, lookupN, Ne.symm h]
  | cons hd tl ih =>
    obtain ⟨k0, n⟩ := hd
    by_cases h0 : k0 = k
    · subst h0
      simp [bump, lookupN, Ne.symm h]
    · simp [bump, lookupN, h0, ih]

theorem summarize_loop_some (plates : List Detection) :
    ∀ (a : List (String × ℕ)) (l : String) (n : ℕ),
      lookupN a l = some n →
      lookupN (plates.foldl (fun acc d => bump acc d.plate) a) l =
        some (n + List.countP (fun d => d.plate == l) plates) := by
  induction plates with
  | nil =>
    intro a l n h
    simp [h]
  | cons d rest ih =>
    intro a l n h
    rw [List.foldl_cons]
    by_cases hd : d.plate = l
    · have hb : lookupN (bump a d.plate) l = some (n + 1) := by
        rw [hd, lookupN_bump_self, h]
        rfl
      rw [ih _ _ _ hb, List.countP_cons]
      simp [hd]
      omega
    · have hb : lookupN (bump a d.plate) l = some n := by
        rw [lookupN_bump_other _ _ _ (fun he => hd he.symm), h]
      rw [ih _ _ _ hb, List.countP_cons]
      simp [hd]

theorem summarize_loop_none (plates : List Detection) :
    ∀ (a : List (String × ℕ)) (l : String),
      lookupN a l = none →
      lookupN (plates.foldl (fun acc d => bump acc d.plate) a) l =
        if 0 < List.countP (fun d => d.plate == l) plates
        then some (List.countP (fun d => d.plate == l) plates)
        else none := by
  induction plates with
  | nil =>
    intro a l h
    simp [h]
  | cons d rest ih =>
    intro a l h
    rw [List.foldl_cons]
    by_cases hd : d.plate = l
    · have hb : lookupN (bump a d.plate) l = some 1 := by
        rw [hd, lookupN_bump_self, h]
        rfl
      rw [summarize_loop_some rest _ _ _ hb, List.countP_cons]
      simp [hd]
      omega
    · have hb : lookupN (bump a d.plate) l = none := by
        rw [lookupN_bump_other _ _ _ (fun he => hd he.symm), h]
      rw [ih _ _ hb, List.countP_cons]
      simp [hd]

/-- C7: `summarize` maps each label to the number of recorded detections
bearing it, and only labels with at least one recorded detection have an
entry; in particular, after processing the candidates ABC123 at `t1`,
XYZ999 at `t2` and ABC123 at `t1 + 10` with duplicate window 5 - all
three accepted - the summary is ABC123 to 2 and XYZ999 to 1. -/
theorem c7_summarize :
    (∀ (plates : List Detection) (l : String),
        lookupN (summarize plates) l =
          if 0 < List.countP (fun d => d.plate == l) plates
          then some (List.countP (fun d => d.plate == l) plates)
          else none) ∧
      (∀ t1 t2 : ℚ,
        summarize
          (observe (observe (observe (initState 0 5 "sid")
              ⟨"ABC123", 0, 1, t1, "i1"⟩)
              ⟨"XYZ999", 0, 1, t2, "i2"⟩)
              ⟨"ABC123", 0, 1, t1 + 10, "i3"⟩).detected_plates =
          [("ABC123", 2), ("XYZ999", 1)]) := by
  constructor
  · intro plates l
    have h := summarize_loop_none plates [] l rfl
    simpa [summarize] using h
  · intro t1 t2
    have hstr : ("ABC123" : String) ≠ "XYZ999" := by decide
    have h105 : ¬((10 : ℚ) < 5) := by norm_num
    have h1 : observe (initState 0 5 "sid") ⟨"ABC123", 0, 1, t1, "i1"⟩ =
        { min_confidence := 0, duplicate_threshold := 5, session_id := "sid",
          detected_plates := [mkDetection "ABC123" 0 1 "i1"],
          last_seen := [("ABC123", t1)],
          persisted :=
            some (mkDoc "sid" [mkDetection "ABC123" 0 1 "i1"] "i1") } := by
      simp [observe, is_duplicate, initState, lookupLS, save_detection,
        insertLS]
    have h2 : observe
        { min_confidence := (0 : ℚ), duplicate_threshold := 5,
          session_id := "sid",
          detected_plates := [mkDetection "ABC123" 0 1 "i1"],
          last_seen := [("ABC123", t1)],
          persisted :=
            some (mkDoc "sid" [mkDetection "ABC123" 0 1 "i1"] "i1") }
        ⟨"XYZ999", 0, 1, t2, "i2"⟩ =
        { min_confidence := 0, duplicate_threshold := 5, session_id := "sid",
          detected_plates :=
            [mkDetection "ABC123" 0 1 "i1", mkDetection "XYZ999" 0 1 "i2"],
          last_seen := [("ABC123", t1), ("XYZ999", t2)],
          persisted :=
            some (mkDoc "sid"
              [mkDetection "ABC123" 0 1 "i1", mkDetection "XYZ999" 0 1 "i2"]
              "i2") } := by
      simp [observe, is_duplicate, lookupLS, save_detection, insertLS, hstr]
    have h3 : observe
        { min_confidence := (0 : ℚ), duplicate_threshold := 5,
          session_id := "sid",
          detected_plates :=
            [mkDetection "ABC123" 0 1 "i1", mkDetection "XYZ999" 0 1 "i2"],
          last_seen := [("ABC123", t1), ("XYZ999", t2)],
          persisted :=
            some (mkDoc "sid"
              [mkDetection "ABC123" 0 1 "i1", mkDetection "XYZ999" 0 1 "i2"]
              "i2") }
        ⟨"ABC123", 0, 1, t1 + 10, "i3"⟩ =
        { min_confidence := 0, duplicate_threshold := 5, session_id := "sid",
          detected_plates :=
            [mkDetection "ABC123" 0 1 "i1", mkDetection "XYZ999" 0 1 "i2",
              mkDetection "ABC123" 0 1 "i3"],
          last_seen := [("ABC123", t1 + 10), ("XYZ999", t2)],
          persisted :=
            some (mkDoc "sid"
              [mkDetection "ABC123" 0 1 "i1", mkDetection "XYZ999" 0 1 "i2",
                mkDetection "ABC123" 0 1 "i3"]
              "i3") } := by
      simp [observe, is_duplicate, lookupLS, save_detection, insertLS, h105]
    rw [h1, h2, h3]
    simp [summarize, bump, mkDetection, lookupN, hstr, Ne.symm hstr]

/-! Helper lemmas for the round-trip of the persisted document. -/

theorem detFromJson_detToJson (d : Detection) :
    detFromJson (detToJson d) = some d := rfl

theorem decodeDets_map (l : List Detection) :
    decodeDets (l.map detToJson) = some l := by
  induction l with
  | nil => rfl
  | cons d rest ih => simp [decodeDets, detFromJson_detToJson, ih]

theorem docFromJson_docToJson (doc : SessionDoc) :
    docFromJson (docToJson doc) = some doc := by
  simp [docToJson, docFromJson, decodeDets_map]

/-- C9: for every non-empty session of accepted detections, the document
persisted at its end deserializes back to the very document: same
`session_id`, same detection count, and for each accepted event the same
timestamp string, plate text, and confidences rounded to 4 decimal
places. -/
theorem c9_roundtrip (mc dt : ℚ) (sid : String) (e : Event)
    (evs : List Event) :
    ∃ doc, (accept_all (initState mc dt sid) (e :: evs)).persisted =
        some doc ∧
      docFromJson (docToJson doc) = some doc ∧
      doc.session_id = sid ∧
      doc.detections.length = (e :: evs).length ∧
      doc.detections = (e :: evs).map (fun ev =>
        { timestamp := ev.iso, plate := ev.plate,
          ocr_confidence := round4 ev.ocr_conf,
          detection_confidence := round4 ev.det_conf }) := by
  obtain ⟨iso, hiso⟩ := accept_all_persisted evs e (initState mc dt sid)
  refine ⟨_, hiso, docFromJson_docToJson _, ?_, ?_, ?_⟩ <;>
    simp [mkDoc, accept_all_detected, initState, detOf, mkDetection]

end WebcamALPR
